import Mathlib

/-!
Verification of the trpc procedure / observable / postMessage-transport core.

The definitions below are a shallow embedding of:
  * the `Procedure` class (input parsing, middleware chain, resolver,
    output parsing) from the procedure source,
  * the `observable` subscription state machine,
  * the `applyPMSHandler` transport handler (`parseMessage`, request
    handling, the `clientSubscriptions` map, batch handling).

JS machine state (mutable flags, the subscription map, responses posted
over the channel) is modelled by explicit state passing; thrown JS
exceptions are modelled with `Except`; observable side effects (which
middleware ran, whether the resolver ran, which envelopes were sent) are
recorded in explicit logs.
-/

namespace TrpcSpec

/-! ### Error model -/

/-- Error codes from the TRPC error taxonomy that this core uses. -/
inductive Code where
  | BAD_REQUEST
  | INTERNAL_SERVER_ERROR
  | PARSE_ERROR
deriving DecidableEq

/-- Values thrown in JS: either a `TRPCError` (a code, an optional message
and an optional cause, itself a previously thrown value) or an arbitrary
non-`TRPCError` value of the ambient value type `V`. -/
inductive Thrown (V : Type) where
  | trpc (code : Code) (message : Option String) (cause : Option (Thrown V))
  | other (v : V)

/-- Modelled from the spec: `getErrorFromUnknown` (imported from
`./errors`, a module not present under src/) normalizes an arbitrary
thrown value into a `TRPCError`; it is code-preserving when the value is
already a `TRPCError` and otherwise wraps the value as an
`INTERNAL_SERVER_ERROR` with the original value kept as cause
(spec sections 4.5 and 7). -/
def getErrorFromUnknown {V : Type} : Thrown V → Thrown V
  | Thrown.trpc c m cause => Thrown.trpc c m cause
  | Thrown.other v => Thrown.trpc Code.INTERNAL_SERVER_ERROR none (some (Thrown.other v))

/-! ### Procedure: middleware chain, input parsing, resolver, output parsing -/

/-- Events recorded while a procedure call runs: one event per middleware
body execution (tagged with the middleware's label) and one event per
resolver execution. -/
inductive Event where
  | mwRun (label : Nat)
  | resolverRun
deriving DecidableEq

/-- The value flowing back out of a middleware step: the object produced
by the terminal step `\x7bok: true, data, ctx\x7d` or the converted failure
`\x7bok: false, error\x7d`.  A middleware that returns nothing at all
(`undefined` in JS) is modelled as `Option.none` at the use sites. -/
inductive MwVal (V C : Type) where
  | okRes (data : V) (ctx : C)
  | errRes (e : Thrown V)

/-- The universe of middleware behaviours used by the embedding.  A JS
middleware is arbitrary code receiving `\x7bctx, ..., next\x7d`; the
behaviours relevant to the chain mechanics are:
  * `tapNext label f`: transforms the context and returns
    `next(\x7bctx: f ctx\x7d)` unchanged (the well-behaved pass-through
    middleware),
  * `short label r`: returns `r` without calling `next` (short-circuit;
    `r = none` models returning `undefined`),
  * `throwErr label e`: throws `e`.
Each carries a label so that its execution shows up in the event log. -/
inductive Middleware (V C : Type) where
  | tapNext (label : Nat) (f : C → C)
  | short (label : Nat) (r : Option (MwVal V C))
  | throwErr (label : Nat) (e : Thrown V)

def Middleware.label {V C : Type} : Middleware V C → Nat
  | Middleware.tapNext l _ => l
  | Middleware.short l _ => l
  | Middleware.throwErr l _ => l

def Middleware.isTap {V C : Type} : Middleware V C → Bool
  | Middleware.tapNext _ _ => true
  | Middleware.short _ _ => false
  | Middleware.throwErr _ _ => false

/-- A `Procedure`: an ordered middleware list, a resolver and the two
parser functions, as configured in the `Procedure` class constructor.
Parsers and the resolver may throw (`Except.error`). -/
structure Procedure (V C : Type) where
  middlewares : List (Middleware V C)
  resolver : C → V → Except (Thrown V) V
  parseInputFn : V → Except (Thrown V) V
  parseOutputFn : V → Except (Thrown V) V

/-- `Procedure.parseInput`: runs the input parser; a parser throw is
wrapped as `TRPCError \x7bcode: BAD_REQUEST, cause\x7d`. -/
def Procedure.parseInput {V C : Type} (p : Procedure V C) (raw : V) : Except (Thrown V) V :=
  match p.parseInputFn raw with
  | Except.ok v => Except.ok v
  | Except.error cause => Except.error (Thrown.trpc Code.BAD_REQUEST none (some cause))

/-- `Procedure.parseOutput`: runs the output parser; a parser throw is
wrapped as `TRPCError \x7bcode: INTERNAL_SERVER_ERROR, cause,
message: "Output validation failed"\x7d`. -/
def Procedure.parseOutput {V C : Type} (p : Procedure V C) (rawOutput : V) : Except (Thrown V) V :=
  match p.parseOutputFn rawOutput with
  | Except.ok v => Except.ok v
  | Except.error cause =>
      Except.error (Thrown.trpc Code.INTERNAL_SERVER_ERROR (some "Output validation failed") (some cause))

/-- The implicit terminal middleware appended by `call`: parse the raw
input, invoke the resolver with `\x7bctx, input\x7d` (recording the
`resolverRun` event), then parse the resolver's raw output.  Any of the
three steps may throw, which propagates out of the terminal step. -/
def runTerminal {V C : Type} (p : Procedure V C) (rawInput : V) (ctx : C)
    (tr : List Event) : Except (Thrown V) (V × C) × List Event :=
  match p.parseInput rawInput with
  | Except.error e => (Except.error e, tr)
  | Except.ok input =>
    let tr' := tr ++ [Event.resolverRun]
    match p.resolver ctx input with
    | Except.error e => (Except.error e, tr')
    | Except.ok rawOutput =>
      match p.parseOutput rawOutput with
      | Except.error e => (Except.error e, tr')
      | Except.ok data => (Except.ok (data, ctx), tr')

/-- The `next`-continuation chain of `call`.  Each step runs the next
middleware with the context passed to `next` (or the original `opts.ctx`
when `next` was called without arguments, modelled by `octx = none`);
the step's invocation is wrapped (`wrapCallSafe`) so that a throw becomes
a local `\x7bok: false, error: getErrorFromUnknown(error)\x7d` value instead
of propagating.  The empty list case is the terminal middleware. -/
def runChain {V C : Type} (p : Procedure V C) (rawInput : V) (dctx : C) :
    List (Middleware V C) → Option C → List Event → Option (MwVal V C) × List Event
  | [], octx, tr =>
    match runTerminal p rawInput (octx.getD dctx) tr with
    | (Except.ok (d, c), tr') => (some (MwVal.okRes d c), tr')
    | (Except.error e, tr') => (some (MwVal.errRes (getErrorFromUnknown e)), tr')
  | Middleware.tapNext l f :: rest, octx, tr =>
    runChain p rawInput dctx rest (some (f (octx.getD dctx))) (tr ++ [Event.mwRun l])
  | Middleware.short l r :: _, _, tr => (r, tr ++ [Event.mwRun l])
  | Middleware.throwErr l e :: _, _, tr =>
    (some (MwVal.errRes (getErrorFromUnknown e)), tr ++ [Event.mwRun l])

/-- `Procedure.call`: run the chain `middlewares ++ [terminal]` starting
from `nextFns[0]()`; if the chain produced no result object, fail with
`INTERNAL_SERVER_ERROR` and the diagnostic message; if the final result is
`ok: false`, rethrow the original error; otherwise return `data`.  The
second component is the log of middleware/resolver executions. -/
def Procedure.call {V C : Type} (p : Procedure V C) (rawInput : V) (ctx : C) :
    Except (Thrown V) V × List Event :=
  match runChain p rawInput ctx p.middlewares none [] with
  | (none, tr) =>
    (Except.error (Thrown.trpc Code.INTERNAL_SERVER_ERROR
      (some "No result from middlewares - did you forget to `return next()`?") none), tr)
  | (some (MwVal.errRes e), tr) => (Except.error e, tr)
  | (some (MwVal.okRes d _), tr) => (Except.ok d, tr)

/-! ### Observable subscription state machine -/

/-- The per-subscription state of `observable(...).subscribe(observer)`:
the four mutable flags of the closure (`teardownRef === null` is modelled
by `teardownRefSet = false`, its later non-null assignment by
`teardownRefSet = true`), plus observational logs: how many times the
teardown logic ran, the values delivered to the downstream observer's
`next`, the errors delivered to its `error`, and how many times its
`complete` fired. -/
structure SubState (V E : Type) where
  teardownRefSet : Bool
  isDone : Bool
  unsubscribed : Bool
  teardownImmediately : Bool
  teardownRuns : Nat
  nextLog : List V
  errorLog : List E
  completeRuns : Nat

/-- The state at the start of `subscribe`, before the producer's
`subscribe` function has run and before `teardownRef` is assigned. -/
def initState {V E : Type} : SubState V E :=
  { teardownRefSet := false, isDone := false, unsubscribed := false,
    teardownImmediately := false, teardownRuns := 0,
    nextLog := [], errorLog := [], completeRuns := 0 }

/-- The inner `unsubscribe` function: if `teardownRef` is still null, set
the deferred flag and return; if already unsubscribed, return; otherwise
mark unsubscribed and run the teardown logic (a function call or a nested
`unsubscribe`, both counted by `teardownRuns`). -/
def unsubscribe {V E : Type} (s : SubState V E) : SubState V E :=
  if s.teardownRefSet = false then { s with teardownImmediately := true }
  else if s.unsubscribed then s
  else { s with unsubscribed := true, teardownRuns := s.teardownRuns + 1 }

/-- The calls a producer or consumer can make on a live subscription:
the wrapped observer's `next`/`error`/`complete`, and `unsubscribe`. -/
inductive Act (V E : Type) where
  | next (v : V)
  | error (e : E)
  | complete
  | unsub

/-- One call on the wrapped observer (or on `unsubscribe`), exactly as the
wrapper in `subscribe` implements it: `next` is dropped when done;
`error`/`complete` are dropped when done and otherwise latch `isDone`,
fire the downstream callback, then call `unsubscribe`. -/
def stepAct {V E : Type} (s : SubState V E) : Act V E → SubState V E
  | Act.next v => if s.isDone then s else { s with nextLog := s.nextLog ++ [v] }
  | Act.error e =>
      if s.isDone then s
      else unsubscribe { s with isDone := true, errorLog := s.errorLog ++ [e] }
  | Act.complete =>
      if s.isDone then s
      else unsubscribe { s with isDone := true, completeRuns := s.completeRuns + 1 }
  | Act.unsub => unsubscribe s

/-- A sequence of calls on one subscription. -/
def runActs {V E : Type} (s : SubState V E) (acts : List (Act V E)) : SubState V E :=
  acts.foldl stepAct s

/-- The state after `subscribe` returns: the producer's `subscribe`
function performed the calls `pre` while `teardownRef` was still null,
then `teardownRef` is assigned, then `if (teardownImmediately)
unsubscribe()` runs the deferred teardown. -/
def afterSubscribe {V E : Type} (pre : List (Act V E)) : SubState V E :=
  let s := runActs (initState : SubState V E) pre
  let s' := { s with teardownRefSet := true }
  if s'.teardownImmediately then unsubscribe s' else s'

/-- A whole subscription run: the producer's calls during `subscribe`,
then an arbitrary interleaving of producer events and consumer
`unsubscribe` calls afterwards. -/
def runSubscription {V E : Type} (pre post : List (Act V E)) : SubState V E :=
  runActs (afterSubscribe pre) post

/-- The observable downstream record of a subscription state: delivered
`next` values, delivered errors, number of `complete` firings. -/
def obsLog {V E : Type} (s : SubState V E) : List V × List E × Nat :=
  (s.nextLog, s.errorLog, s.completeRuns)

/-! ### JS values and the envelope validation of `applyPMSHandler` -/

/-- JS values as they occur on the handler's inbound path.  `NaN` is a
number whose `isNaN` test is true, so it gets its own constructor next to
the finite numbers (modelled as integers, which covers every id value the
claims touch). -/
inductive JSVal where
  | null
  | undefined
  | bool (b : Bool)
  | num (n : Int)
  | nan
  | str (s : String)
  | arr (elems : List JSVal)
  | obj (fields : List (String × JSVal))

/-- JS `typeof`. -/
def JSVal.typeof : JSVal → String
  | JSVal.null => "object"
  | JSVal.undefined => "undefined"
  | JSVal.bool _ => "boolean"
  | JSVal.num _ => "number"
  | JSVal.nan => "number"
  | JSVal.str _ => "string"
  | JSVal.arr _ => "object"
  | JSVal.obj _ => "object"

/-- JS truthiness, used by `!obj` in `assertIsObject`. -/
def JSVal.truthy : JSVal → Bool
  | JSVal.null => false
  | JSVal.undefined => false
  | JSVal.bool b => b
  | JSVal.num n => n != 0
  | JSVal.nan => false
  | JSVal.str s => !s.isEmpty
  | JSVal.arr _ => true
  | JSVal.obj _ => true

/-- `Array.isArray`. -/
def JSVal.isArray : JSVal → Bool
  | JSVal.arr _ => true
  | _ => false

/-- Strict equality against `null` (`obj !== null` is its negation). -/
def JSVal.isNull : JSVal → Bool
  | JSVal.null => true
  | _ => false

/-- JS global `isNaN` on the values the guard in `assertIsRequestId` can
reach it with: its only call site is conjoined with
`typeof obj === 'number'`, and on numbers `isNaN` is true exactly for
`NaN`.  Coercing cases for non-number values are irrelevant at that call
site and modelled as false. -/
def jsIsNaN : JSVal → Bool
  | JSVal.nan => true
  | _ => false

/-- Property lookup on an object literal's field list (first binding
wins), `undefined` when the key is absent. -/
def fieldGet : List (String × JSVal) → String → JSVal
  | [], _ => JSVal.undefined
  | (k, v) :: rest, key => if k = key then v else fieldGet rest key

/-- JS property access `obj.k` as used by `parseMessage` after
`assertIsObject` (so only the object case matters). -/
def JSVal.getField : JSVal → String → JSVal
  | JSVal.obj fields, key => fieldGet fields key
  | _, _ => JSVal.undefined

/-- String coercion as performed by the template literal
`Duplicate id ${id}` (ids in scope there are numbers or strings; the
remaining cases follow the JS `String()` coercion, with the array
element-join coercion left out as unreachable for ids). -/
def jsToString : JSVal → String
  | JSVal.null => "null"
  | JSVal.undefined => "undefined"
  | JSVal.bool b => if b then "true" else "false"
  | JSVal.num n => toString n
  | JSVal.nan => "NaN"
  | JSVal.str s => s
  | JSVal.obj _ => "[object Object]"
  | JSVal.arr _ => ""

/-- `assertIsObject`: throws unless the value is a non-null non-array
`typeof 'object'` value. -/
def assertIsObject (v : JSVal) : Except String Unit :=
  if v.typeof ≠ "object" ∨ v.isArray = true ∨ v.truthy = false then
    Except.error "Not an object"
  else Except.ok ()

/-- The guard condition of `assertIsRequestId`, exactly as written:
`obj !== null && typeof obj === 'number' && isNaN(obj) &&
typeof obj !== 'string'`. -/
def requestIdGuard (v : JSVal) : Bool :=
  !v.isNull && (v.typeof == "number" && (jsIsNaN v && (v.typeof != "string")))

/-- `assertIsRequestId`: throws when the guard condition holds. -/
def assertIsRequestId (v : JSVal) : Except String Unit :=
  if requestIdGuard v then Except.error "Invalid request id" else Except.ok ()

/-- The procedure types a non-stop envelope may carry. -/
inductive ProcType where
  | query
  | mutation
  | subscription
deriving DecidableEq

/-- `assertIsProcedureType`: throws unless the value is one of the three
procedure-type strings. -/
def assertIsProcedureType (v : JSVal) : Except String ProcType :=
  match v with
  | JSVal.str "query" => Except.ok ProcType.query
  | JSVal.str "subscription" => Except.ok ProcType.subscription
  | JSVal.str "mutation" => Except.ok ProcType.mutation
  | _ => Except.error "Invalid procedure type"

/-- `assertIsString`. -/
def assertIsString (v : JSVal) : Except String String :=
  match v with
  | JSVal.str s => Except.ok s
  | _ => Except.error "Invalid string"

/-- `assertIsJSONRPC2OrUndefined`. -/
def assertIsJSONRPC2OrUndefined (v : JSVal) : Except String Unit :=
  match v with
  | JSVal.undefined => Except.ok ()
  | JSVal.str "2.0" => Except.ok ()
  | _ => Except.error "Must be JSONRPC 2.0"

/-- The request body after parsing: a `subscription.stop` request, or a
procedure request with its type, path and deserialized input. -/
inductive ReqBody where
  | stop
  | proc (type : ProcType) (path : String) (input : JSVal)

/-- A parsed `TRPCRequest` (the id is kept as the raw JS value; the
handler itself re-checks it against `null`). -/
structure TRPCReq where
  id : JSVal
  body : ReqBody

/-- `parseMessage`: field-by-field validation of one inbound envelope,
with the input payload passed through the pluggable transformer's
`input.deserialize` (a parameter, since the transformer is an external
collaborator). -/
def parseMessage (deser : JSVal → JSVal) (v : JSVal) : Except String TRPCReq := do
  assertIsObject v
  let method := v.getField "method"
  let params := v.getField "params"
  let id := v.getField "id"
  let jsonrpc := v.getField "jsonrpc"
  assertIsRequestId id
  assertIsJSONRPC2OrUndefined jsonrpc
  match method with
  | JSVal.str "subscription.stop" => return { id := id, body := ReqBody.stop }
  | _ =>
    let t ← assertIsProcedureType method
    assertIsObject params
    let path ← assertIsString (params.getField "path")
    let input := deser (params.getField "input")
    return { id := id, body := ReqBody.proc t path input }

/-! ### Transport handler state machine -/

/-- Key equality of the `clientSubscriptions` JS `Map`: SameValueZero.
Primitives compare by value; objects and arrays compare by reference, and
every parsed envelope allocates fresh objects, so distinct object keys
never collide — modelled as never equal. -/
def idKeyEq : JSVal → JSVal → Bool
  | JSVal.null, JSVal.null => true
  | JSVal.undefined, JSVal.undefined => true
  | JSVal.bool a, JSVal.bool b => a == b
  | JSVal.num a, JSVal.num b => a == b
  | JSVal.nan, JSVal.nan => true
  | JSVal.str a, JSVal.str b => a == b
  | _, _ => false

/-- `Map.get` on `clientSubscriptions` (entries keyed by request id,
holding the handler-side handle of the tracked Subscription). -/
def mapLookup : List (JSVal × Nat) → JSVal → Option Nat
  | [], _ => none
  | (k, v) :: rest, key => if idKeyEq k key then some v else mapLookup rest key

/-- `Map.set`. -/
def mapSet : List (JSVal × Nat) → JSVal → Nat → List (JSVal × Nat)
  | [], key, v => [(key, v)]
  | (k, v') :: rest, key, v =>
      if idKeyEq k key then (key, v) :: rest else (k, v') :: mapSet rest key v

/-- `Map.delete`. -/
def mapDelete : List (JSVal × Nat) → JSVal → List (JSVal × Nat)
  | [], _ => []
  | (k, v) :: rest, key =>
      if idKeyEq k key then rest else (k, v) :: mapDelete rest key

/-- Lifecycle status of a procedure-level Subscription object. -/
inductive SubStatus where
  | active
  | destroyed
deriving DecidableEq

/-- Modelled from the spec: the procedure-level `Subscription` entity
(imported from `../subscription`, not present under src/) wraps a stream
with lifecycle events `data`/`error`/`destroy` and explicit
`start()`/`destroy()` (spec section 3).  The handler attaches its three
event handlers to at most one request id, recorded in `handlersFor`;
`destroy()` moves an active subscription to `destroyed` and fires the
attached `destroy` handler once. -/
structure SubEntry where
  status : SubStatus
  handlersFor : Option JSVal

/-- Lookup in the registry of all Subscription objects the handler has
obtained, keyed by an allocation counter. -/
def assocFindNat : List (Nat × SubEntry) → Nat → Option SubEntry
  | [], _ => none
  | (k, v) :: rest, key => if k = key then some v else assocFindNat rest key

/-- Update in the Subscription registry. -/
def assocSetNat : List (Nat × SubEntry) → Nat → SubEntry → List (Nat × SubEntry)
  | [], key, v => [(key, v)]
  | (k, v') :: rest, key, v =>
      if k = key then (key, v) :: rest else (k, v') :: assocSetNat rest key v

/-- A shaped outbound error: the code/message relevant to the handler
(the `getErrorShape` hook of the router is an external collaborator; the
model keeps the error's code and message through it). -/
structure HandlerError where
  code : Code
  message : Option String
deriving DecidableEq

/-- Envelopes posted back over the channel by `respond`. -/
inductive Response where
  | dataRes (id : JSVal) (v : JSVal)
  | started (id : JSVal)
  | stopped (id : JSVal)
  | errRes (id : JSVal) (e : HandlerError)

/-- The state owned by one `applyPMSHandler` instance: the
`clientSubscriptions` map, the registry of Subscription objects obtained
so far (with a fresh-handle counter), and the ordered log of envelopes
posted over the channel. -/
structure HandlerState where
  clientSubscriptions : List (JSVal × Nat)
  subs : List (Nat × SubEntry)
  nextSubId : Nat
  sent : List Response

/-- The state of a freshly installed handler. -/
def emptyHandlerState : HandlerState :=
  { clientSubscriptions := [], subs := [], nextSubId := 0, sent := [] }

/-- `sub.destroy()`: a no-op on an already destroyed (or unknown)
subscription; on an active one, mark it destroyed and fire the attached
`destroy` event handler, which responds `\x7bid, result: \x7btype:
'stopped'\x7d\x7d` for the request id the handlers were attached with. -/
def destroySub (st : HandlerState) (sid : Nat) : HandlerState :=
  match assocFindNat st.subs sid with
  | none => st
  | some entry =>
    if entry.status = SubStatus.active then
      let st' := { st with subs := assocSetNat st.subs sid { entry with status := SubStatus.destroyed } }
      match entry.handlersFor with
      | some id => { st' with sent := st'.sent ++ [Response.stopped id] }
      | none => st'
    else st

/-- What `callProcedure` resolves to for a given path/type/input: a plain
value, a Subscription object (not yet started), or a thrown error (after
normalization and shaping).  The router is an external collaborator, so
the outcome is a parameter of the handler model. -/
inductive ProcOutcome where
  | value (v : JSVal)
  | subscription
  | failure (e : HandlerError)

/-- A router as the handler sees it through `callProcedure`. -/
def Router : Type := String → ProcType → JSVal → ProcOutcome

/-- `handleRequest` for one parsed request.  The boolean result records
whether the request's async handler rejected (which only happens for the
`id === null` throw; every other failure is caught inside and answered
with an error envelope).  Mirrors the source: stop requests destroy and
untrack; procedure results are answered once; a Subscription result is
rejected as `BAD_REQUEST "Duplicate id ..."` when the id is tracked
(destroying the fresh Subscription, registered nowhere), otherwise
registered, given its event handlers, acknowledged with `started` and
started. -/
def handleRequest (router : Router) (st : HandlerState) (req : TRPCReq) :
    HandlerState × Bool :=
  if req.id.isNull then (st, true)
  else
    match req.body with
    | ReqBody.stop =>
      let st' :=
        match mapLookup st.clientSubscriptions req.id with
        | some sid => destroySub st sid
        | none => st
      ({ st' with clientSubscriptions := mapDelete st'.clientSubscriptions req.id }, false)
    | ReqBody.proc t path input =>
      match router path t input with
      | ProcOutcome.failure e =>
        ({ st with sent := st.sent ++ [Response.errRes req.id e] }, false)
      | ProcOutcome.value v =>
        ({ st with sent := st.sent ++ [Response.dataRes req.id v] }, false)
      | ProcOutcome.subscription =>
        let sid := st.nextSubId
        let st1 : HandlerState :=
          { st with nextSubId := sid + 1,
                    subs := st.subs ++ [(sid, { status := SubStatus.active, handlersFor := none })] }
        if (mapLookup st1.clientSubscriptions req.id).isSome then
          let st2 := destroySub st1 sid
          ({ st2 with sent := st2.sent ++
              [Response.errRes req.id
                { code := Code.BAD_REQUEST,
                  message := some ("Duplicate id " ++ jsToString req.id) }] }, false)
        else
          let st2 : HandlerState :=
            { st1 with clientSubscriptions := mapSet st1.clientSubscriptions req.id sid,
                       subs := assocSetNat st1.subs sid
                         { status := SubStatus.active, handlersFor := some req.id } }
          ({ st2 with sent := st2.sent ++ [Response.started req.id] }, false)

/-- The `sub.on('data')` handler attached for a registered subscription:
respond `\x7bid, result: \x7btype: 'data', data\x7d\x7d`.  It does not touch the
`clientSubscriptions` map. -/
def fireData (st : HandlerState) (id : JSVal) (v : JSVal) : HandlerState :=
  { st with sent := st.sent ++ [Response.dataRes id v] }

/-- The `sub.on('error')` handler attached for a registered subscription:
shape the (normalized) error and respond `\x7bid, error\x7d`.  It does not
touch the `clientSubscriptions` map. -/
def fireError (st : HandlerState) (id : JSVal) (e : HandlerError) : HandlerState :=
  { st with sent := st.sent ++ [Response.errRes id e] }

/-- The error envelope emitted when processing an inbound message fails
before any request can be associated: `\x7bid: null, error: \x7bcode:
'PARSE_ERROR', ...\x7d\x7d`. -/
def parseErrorResponse : Response :=
  Response.errRes JSVal.null { code := Code.PARSE_ERROR, message := none }

/-- `msgs.map((raw) => parseMessage(raw, transformer))`: a synchronous
map whose first throw aborts the whole traversal. -/
def parseAll (deser : JSVal → JSVal) : List JSVal → Except String (List TRPCReq)
  | [] => Except.ok []
  | m :: rest => do
    let r ← parseMessage deser m
    let rs ← parseAll deser rest
    return r :: rs

/-- Dispatch of the parsed batch members, all awaited; a rejection of any
member's handler is caught once by the message-level `catch` and answered
with the `PARSE_ERROR` envelope. -/
def dispatchAll (router : Router) (st : HandlerState) (reqs : List TRPCReq) :
    HandlerState × Bool :=
  reqs.foldl
    (fun acc req =>
      let r := handleRequest router acc.1 req
      (r.1, acc.2 || r.2))
    (st, false)

/-- The inbound `message` listener, after `JSON.parse` succeeded on the
payload: wrap a non-array payload as a one-element batch, parse every
member (a single throw aborts the batch), dispatch all members and await
them; any failure escaping to the `catch` responds with the
`PARSE_ERROR` envelope carrying `id: null`. -/
def onMessage (router : Router) (deser : JSVal → JSVal) (st : HandlerState)
    (payload : JSVal) : HandlerState :=
  let msgs := match payload with
    | JSVal.arr xs => xs
    | v => [v]
  match parseAll deser msgs with
  | Except.error _ => { st with sent := st.sent ++ [parseErrorResponse] }
  | Except.ok reqs =>
    let r := dispatchAll router st reqs
    if r.2 then { r.1 with sent := r.1.sent ++ [parseErrorResponse] } else r.1

/-- `close()`: destroy every tracked subscription and clear the map. -/
def closeHandler (st : HandlerState) : HandlerState :=
  let st' := st.clientSubscriptions.foldl (fun acc e => destroySub acc e.2) st
  { st' with clientSubscriptions := [] }

/-! ### Lemmas about the middleware chain -/

theorem runTerminal_parse_error {V C : Type} (p : Procedure V C) (raw : V) (ctx : C)
    (tr : List Event) (c : Thrown V) (h : p.parseInputFn raw = Except.error c) :
    runTerminal p raw ctx tr =
      (Except.error (Thrown.trpc Code.BAD_REQUEST none (some c)), tr) := by
  simp [runTerminal, Procedure.parseInput, h]

theorem runTerminal_trace_of_parse_ok {V C : Type} (p : Procedure V C) (raw : V) (ctx : C)
    (tr : List Event) (i : V) (h : p.parseInputFn raw = Except.ok i) :
    (runTerminal p raw ctx tr).2 = tr ++ [Event.resolverRun] := by
  simp only [runTerminal, Procedure.parseInput, h]
  rcases hr : p.resolver ctx i with e | o
  · simp
  · rcases ho : p.parseOutput o with e2 | d <;> simp [ho]

theorem runChain_parse_error_no_resolver {V C : Type} (p : Procedure V C) (raw : V)
    (dctx : C) (c : Thrown V) (h : p.parseInputFn raw = Except.error c) :
    ∀ (mws : List (Middleware V C)) (octx : Option C) (tr : List Event),
      Event.resolverRun ∉ tr → Event.resolverRun ∉ (runChain p raw dctx mws octx tr).2 := by
  intro mws
  induction mws with
  | nil =>
    intro octx tr htr
    simpa [runChain, runTerminal_parse_error p raw (octx.getD dctx) tr c h] using htr
  | cons mw rest ih =>
    intro octx tr htr
    cases mw with
    | tapNext l f =>
      exact ih _ _ (by simp [htr])
    | short l r =>
      simpa [runChain] using (by simp [htr] : Event.resolverRun ∉ tr ++ [Event.mwRun l])
    | throwErr l e =>
      simpa [runChain] using (by simp [htr] : Event.resolverRun ∉ tr ++ [Event.mwRun l])

theorem runChain_parse_error_allTap {V C : Type} (p : Procedure V C) (raw : V)
    (dctx : C) (c : Thrown V) (h : p.parseInputFn raw = Except.error c) :
    ∀ (mws : List (Middleware V C)), (∀ mw ∈ mws, mw.isTap = true) →
      ∀ (octx : Option C) (tr : List Event),
      (runChain p raw dctx mws octx tr).1 =
        some (MwVal.errRes (Thrown.trpc Code.BAD_REQUEST none (some c))) := by
  intro mws
  induction mws with
  | nil =>
    intro _ octx tr
    simp [runChain, runTerminal_parse_error p raw (octx.getD dctx) tr c h, getErrorFromUnknown]
  | cons mw rest ih =>
    intro htap octx tr
    cases mw with
    | tapNext l f =>
      exact ih (fun m hm => htap m (List.mem_cons_of_mem _ hm)) _ _
    | short l r =>
      exact absurd (htap _ (List.mem_cons_self _ _)) (by simp [Middleware.isTap])
    | throwErr l e =>
      exact absurd (htap _ (List.mem_cons_self _ _)) (by simp [Middleware.isTap])

theorem runChain_trace_allTap {V C : Type} (p : Procedure V C) (raw : V)
    (dctx : C) (i : V) (h : p.parseInputFn raw = Except.ok i) :
    ∀ (mws : List (Middleware V C)), (∀ mw ∈ mws, mw.isTap = true) →
      ∀ (octx : Option C) (tr : List Event),
      (runChain p raw dctx mws octx tr).2 =
        tr ++ (mws.map fun mw => Event.mwRun mw.label) ++ [Event.resolverRun] := by
  intro mws
  induction mws with
  | nil =>
    intro _ octx tr
    rcases hrt : runTerminal p raw (octx.getD dctx) tr with ⟨r, tr'⟩
    have htr' : tr' = tr ++ [Event.resolverRun] := by
      have := runTerminal_trace_of_parse_ok p raw (octx.getD dctx) tr i h
      rw [hrt] at this
      exact this
    rcases r with e | ⟨d, cx⟩ <;> simp [runChain, hrt, htr']
  | cons mw rest ih =>
    intro htap octx tr
    cases mw with
    | tapNext l f =>
      have := ih (fun m hm => htap m (List.mem_cons_of_mem _ hm))
        (some (f (octx.getD dctx))) (tr ++ [Event.mwRun l])
      simpa [runChain, List.append_assoc] using this
    | short l r =>
      exact absurd (htap _ (List.mem_cons_self _ _)) (by simp [Middleware.isTap])
    | throwErr l e =>
      exact absurd (htap _ (List.mem_cons_self _ _)) (by simp [Middleware.isTap])

theorem runChain_output_error_allTap {V C : Type} (p : Procedure V C) (raw : V)
    (dctx : C) (i out : V) (e : Thrown V)
    (hin : p.parseInputFn raw = Except.ok i)
    (hres : ∀ c, p.resolver c i = Except.ok out)
    (hout : p.parseOutputFn out = Except.error e) :
    ∀ (mws : List (Middleware V C)), (∀ mw ∈ mws, mw.isTap = true) →
      ∀ (octx : Option C) (tr : List Event),
      (runChain p raw dctx mws octx tr).1 =
        some (MwVal.errRes (Thrown.trpc Code.INTERNAL_SERVER_ERROR
          (some "Output validation failed") (some e))) := by
  intro mws
  induction mws with
  | nil =>
    intro _ octx tr
    simp [runChain, runTerminal, Procedure.parseInput, hin, hres (octx.getD dctx),
      Procedure.parseOutput, hout, getErrorFromUnknown]
  | cons mw rest ih =>
    intro htap octx tr
    cases mw with
    | tapNext l f =>
      exact ih (fun m hm => htap m (List.mem_cons_of_mem _ hm)) _ _
    | short l r =>
      exact absurd (htap _ (List.mem_cons_self _ _)) (by simp [Middleware.isTap])
    | throwErr l e2 =>
      exact absurd (htap _ (List.mem_cons_self _ _)) (by simp [Middleware.isTap])

/-! ### Claims C1, C2, C3 -/

/-- C1: for every raw input on which the input parser throws (and a chain
of pass-through middlewares, which forward `next()`'s result as every
cooperative middleware does), `Procedure.call` fails with a `BAD_REQUEST`
error carrying the parser's thrown value as cause, and the resolver is
never invoked. -/
theorem call_input_parse_failure {V C : Type} (p : Procedure V C) (raw : V) (ctx : C)
    (c : Thrown V)
    (htap : ∀ mw ∈ p.middlewares, mw.isTap = true)
    (h : p.parseInputFn raw = Except.error c) :
    (p.call raw ctx).1 = Except.error (Thrown.trpc Code.BAD_REQUEST none (some c))
  ∧ Event.resolverRun ∉ (p.call raw ctx).2 := by
  have h1 := runChain_parse_error_allTap p raw ctx c h p.middlewares htap none []
  have h2 := runChain_parse_error_no_resolver p raw ctx c h p.middlewares none [] (by simp)
  rcases hrc : runChain p raw ctx p.middlewares none [] with ⟨r, tr⟩
  rw [hrc] at h1 h2
  simp only at h1 h2
  subst h1
  exact ⟨by simp [Procedure.call, hrc], by simpa [Procedure.call, hrc] using h2⟩

/-- Concrete instance used by the C1 witness: one pass-through middleware. -/
def witnessTap : Middleware Nat Nat := Middleware.tapNext 0 (fun c => c)

/-- Concrete procedure whose input parser always throws the value `9`. -/
def procBadInput : Procedure Nat Nat :=
  { middlewares := [witnessTap],
    resolver := fun _ v => Except.ok v,
    parseInputFn := fun _ => Except.error (Thrown.other 9),
    parseOutputFn := fun v => Except.ok v }

/-- Witness for C1 at a concrete procedure and input. -/
theorem call_input_parse_failure_witness :
    (procBadInput.call 3 0).1 =
      Except.error (Thrown.trpc Code.BAD_REQUEST none (some (Thrown.other 9)))
  ∧ Event.resolverRun ∉ (procBadInput.call 3 0).2 :=
  call_input_parse_failure procBadInput 3 0 (Thrown.other 9)
    (by intro mw hmw; fin_cases hmw; rfl) rfl

/-- C2: for every resolver output on which the output parser throws (with
pass-through middlewares), `Procedure.call` fails with
`INTERNAL_SERVER_ERROR` and the message "Output validation failed", and
the execution log shows the resolver was executed (exactly once, after
all middlewares) before this failure: output parsing happens strictly
after resolver execution. -/
theorem call_output_parse_failure {V C : Type} (p : Procedure V C) (raw : V) (ctx : C)
    (i out : V) (e : Thrown V)
    (htap : ∀ mw ∈ p.middlewares, mw.isTap = true)
    (hin : p.parseInputFn raw = Except.ok i)
    (hres : ∀ c, p.resolver c i = Except.ok out)
    (hout : p.parseOutputFn out = Except.error e) :
    (p.call raw ctx).1 = Except.error (Thrown.trpc Code.INTERNAL_SERVER_ERROR
      (some "Output validation failed") (some e))
  ∧ (p.call raw ctx).2 =
      (p.middlewares.map fun mw => Event.mwRun mw.label) ++ [Event.resolverRun] := by
  have h1 := runChain_output_error_allTap p raw ctx i out e hin hres hout p.middlewares htap none []
  have h2 := runChain_trace_allTap p raw ctx i hin p.middlewares htap none []
  rcases hrc : runChain p raw ctx p.middlewares none [] with ⟨r, tr⟩
  rw [hrc] at h1 h2
  simp only [List.nil_append] at h1 h2
  subst h1
  subst h2
  exact ⟨by simp [Procedure.call, hrc], by simp [Procedure.call, hrc]⟩

/-- Concrete procedure whose output parser always throws the value `7`. -/
def procBadOutput : Procedure Nat Nat :=
  { middlewares := [witnessTap],
    resolver := fun _ _ => Except.ok 5,
    parseInputFn := fun v => Except.ok v,
    parseOutputFn := fun _ => Except.error (Thrown.other 7) }

/-- Witness for C2 at a concrete procedure and input. -/
theorem call_output_parse_failure_witness :
    (procBadOutput.call 3 0).1 = Except.error (Thrown.trpc Code.INTERNAL_SERVER_ERROR
      (some "Output validation failed") (some (Thrown.other 7)))
  ∧ (procBadOutput.call 3 0).2 =
      (procBadOutput.middlewares.map fun mw => Event.mwRun mw.label) ++ [Event.resolverRun] :=
  call_output_parse_failure procBadOutput 3 0 3 5 (Thrown.other 7)
    (by intro mw hmw; fin_cases hmw; rfl) rfl (fun _ => rfl) rfl

/-- C3: for every call whose input the input parser accepts (with
pass-through middlewares), the execution log of `Procedure.call` is
exactly one run of each configured middleware, in configured order,
followed by exactly one run of the resolver as the innermost step. -/
theorem call_middleware_order {V C : Type} (p : Procedure V C) (raw : V) (ctx : C)
    (i : V)
    (htap : ∀ mw ∈ p.middlewares, mw.isTap = true)
    (hin : p.parseInputFn raw = Except.ok i) :
    (p.call raw ctx).2 =
      (p.middlewares.map fun mw => Event.mwRun mw.label) ++ [Event.resolverRun] := by
  have h2 := runChain_trace_allTap p raw ctx i hin p.middlewares htap none []
  rcases hrc : runChain p raw ctx p.middlewares none [] with ⟨r, tr⟩
  rw [hrc] at h2
  simp only [List.nil_append] at h2
  subst h2
  rcases r with _ | r
  · simp [Procedure.call, hrc]
  · rcases r with ⟨d, cx⟩ | e <;> simp [Procedure.call, hrc]

/-- Concrete procedure with two labelled middlewares. -/
def procTwoMws : Procedure Nat Nat :=
  { middlewares := [Middleware.tapNext 10 (fun c => c + 1), Middleware.tapNext 20 (fun c => c * 2)],
    resolver := fun _ v => Except.ok (v + 1),
    parseInputFn := fun v => Except.ok v,
    parseOutputFn := fun v => Except.ok v }

/-- Witness for C3 at a concrete two-middleware procedure. -/
theorem call_middleware_order_witness :
    (procTwoMws.call 3 5).2 =
      (procTwoMws.middlewares.map fun mw => Event.mwRun mw.label) ++ [Event.resolverRun] :=
  call_middleware_order procTwoMws 3 5 3
    (by intro mw hmw; fin_cases hmw <;> rfl) rfl

/-! ### Lemmas about the observable state machine -/

theorem unsubscribe_fields {V E : Type} (s : SubState V E) :
    (unsubscribe s).isDone = s.isDone ∧ (unsubscribe s).nextLog = s.nextLog
  ∧ (unsubscribe s).errorLog = s.errorLog ∧ (unsubscribe s).completeRuns = s.completeRuns := by
  unfold unsubscribe
  split
  · exact ⟨rfl, rfl, rfl, rfl⟩
  · split
    · exact ⟨rfl, rfl, rfl, rfl⟩
    · exact ⟨rfl, rfl, rfl, rfl⟩

theorem stepAct_done {V E : Type} (s : SubState V E) (a : Act V E) (h : s.isDone = true) :
    obsLog (stepAct s a) = obsLog s ∧ (stepAct s a).isDone = true := by
  cases a with
  | next v => simp [stepAct, h]
  | error e => simp [stepAct, h]
  | complete => simp [stepAct, h]
  | unsub =>
    obtain ⟨h1, h2, h3, h4⟩ := unsubscribe_fields s
    exact ⟨by simp [stepAct, obsLog, h2, h3, h4], by simp [stepAct, h1, h]⟩

theorem runActs_done {V E : Type} (acts : List (Act V E)) :
    ∀ s : SubState V E, s.isDone = true →
      obsLog (runActs s acts) = obsLog s ∧ (runActs s acts).isDone = true := by
  induction acts with
  | nil => intro s h; exact ⟨rfl, h⟩
  | cons a rest ih =>
    intro s h
    obtain ⟨h1, h2⟩ := stepAct_done s a h
    obtain ⟨h3, h4⟩ := ih (stepAct s a) h2
    exact ⟨by simpa [runActs] using h3.trans h1, by simpa [runActs] using h4⟩

/-! ### Claim C4 -/

/-- C4: `error` and `complete` on the wrapped observer latch `isDone`,
and once a subscription state is done, no further sequence of producer
calls (`next`, `error`, `complete`, or even `unsubscribe`) changes what
was delivered to the downstream observer: the done state is terminal. -/
theorem observable_latched_done {V E : Type} (s t : SubState V E) (e : E)
    (acts : List (Act V E)) (h : s.isDone = true) :
    obsLog (runActs s acts) = obsLog s
  ∧ (runActs s acts).isDone = true
  ∧ (stepAct t (Act.error e)).isDone = true
  ∧ (stepAct t Act.complete).isDone = true := by
  obtain ⟨h1, h2⟩ := runActs_done acts s h
  refine ⟨h1, h2, ?_, ?_⟩
  · cases hd : t.isDone with
    | true => simp [stepAct, hd]
    | false =>
      simpa [stepAct, hd] using
        ((unsubscribe_fields { t with isDone := true, errorLog := t.errorLog ++ [e] }).1)
  · cases hd : t.isDone with
    | true => simp [stepAct, hd]
    | false =>
      simpa [stepAct, hd] using
        ((unsubscribe_fields { t with isDone := true, completeRuns := t.completeRuns + 1 }).1)

/-- Witness for C4: a state that completed, hit with further events. -/
theorem observable_latched_done_witness :
    obsLog (runActs (runSubscription (V := Nat) (E := Nat) [] [Act.complete])
        [Act.next 1, Act.error 2, Act.complete, Act.unsub])
      = obsLog (runSubscription (V := Nat) (E := Nat) [] [Act.complete])
  ∧ (runActs (runSubscription (V := Nat) (E := Nat) [] [Act.complete])
        [Act.next 1, Act.error 2, Act.complete, Act.unsub]).isDone = true
  ∧ (stepAct (initState : SubState Nat Nat) (Act.error 2)).isDone = true
  ∧ (stepAct (initState : SubState Nat Nat) Act.complete).isDone = true :=
  observable_latched_done (runSubscription [] [Act.complete]) initState 2
    [Act.next 1, Act.error 2, Act.complete, Act.unsub] rfl

/-! ### Claim C5 -/

/-- The teardown-counting invariant: the teardown logic has run exactly
once if `unsubscribed` is set and never otherwise. -/
def tdInv {V E : Type} (s : SubState V E) : Prop :=
  s.teardownRuns = (if s.unsubscribed then 1 else 0)

theorem tdInv_unsubscribe {V E : Type} (s : SubState V E) (h : tdInv s) :
    tdInv (unsubscribe s) := by
  unfold tdInv at h ⊢
  cases h1 : s.teardownRefSet with
  | false => simpa [unsubscribe, h1] using h
  | true =>
    cases h2 : s.unsubscribed with
    | true => simp [unsubscribe, h1, h2, h2 ▸ h]
    | false =>
      rw [h2] at h
      simp only [if_neg Bool.false_ne_true] at h
      simp [unsubscribe, h1, h2, h]

theorem unsubscribe_keeps_unsubscribed {V E : Type} (s : SubState V E)
    (h : s.unsubscribed = true) : (unsubscribe s).unsubscribed = true := by
  cases h1 : s.teardownRefSet <;> simp [unsubscribe, h1, h]

theorem tdInv_stepAct {V E : Type} (s : SubState V E) (a : Act V E) (h : tdInv s) :
    tdInv (stepAct s a) := by
  cases a with
  | next v =>
    unfold tdInv at h ⊢
    simp only [stepAct]
    split
    · exact h
    · exact h
  | error e =>
    simp only [stepAct]
    split
    · exact h
    · exact tdInv_unsubscribe _ h
  | complete =>
    simp only [stepAct]
    split
    · exact h
    · exact tdInv_unsubscribe _ h
  | unsub => exact tdInv_unsubscribe _ h

theorem tdInv_runActs {V E : Type} (acts : List (Act V E)) :
    ∀ s : SubState V E, tdInv s → tdInv (runActs s acts) := by
  induction acts with
  | nil => intro s h; exact h
  | cons a rest ih =>
    intro s h
    simpa [runActs] using ih (stepAct s a) (tdInv_stepAct s a h)

theorem tdInv_init {V E : Type} : tdInv (initState : SubState V E) := by
  simp [tdInv, initState]

theorem tdInv_afterSubscribe {V E : Type} (pre : List (Act V E)) :
    tdInv (afterSubscribe pre) := by
  have h1 := tdInv_runActs pre (initState : SubState V E) tdInv_init
  have h2 : tdInv ({ runActs (initState : SubState V E) pre with teardownRefSet := true }) := by
    unfold tdInv at h1 ⊢
    simpa using h1
  by_cases hImm : (runActs (initState : SubState V E) pre).teardownImmediately = true
  · have heq : afterSubscribe pre =
        unsubscribe { runActs (initState : SubState V E) pre with teardownRefSet := true } := by
      unfold afterSubscribe
      simp [hImm]
    rw [heq]
    exact tdInv_unsubscribe _ h2
  · have heq : afterSubscribe pre =
        { runActs (initState : SubState V E) pre with teardownRefSet := true } := by
      unfold afterSubscribe
      simp [hImm]
    rw [heq]
    exact h2

theorem stepAct_noRef {V E : Type} (s : SubState V E) (a : Act V E)
    (h : s.teardownRefSet = false) :
    (stepAct s a).teardownRefSet = false
  ∧ (stepAct s a).unsubscribed = s.unsubscribed
  ∧ (stepAct s a).teardownRuns = s.teardownRuns := by
  cases a <;> cases hd : s.isDone <;> simp [stepAct, unsubscribe, hd, h]

theorem runActs_noRef {V E : Type} (acts : List (Act V E)) :
    ∀ s : SubState V E, s.teardownRefSet = false →
      (runActs s acts).teardownRefSet = false
    ∧ (runActs s acts).unsubscribed = s.unsubscribed
    ∧ (runActs s acts).teardownRuns = s.teardownRuns := by
  induction acts with
  | nil => intro s h; exact ⟨h, rfl, rfl⟩
  | cons a rest ih =>
    intro s h
    obtain ⟨h1, h2, h3⟩ := stepAct_noRef s a h
    obtain ⟨h4, h5, h6⟩ := ih (stepAct s a) h1
    exact ⟨by simpa [runActs] using h4,
      by simpa [runActs] using h5.trans h2,
      by simpa [runActs] using h6.trans h3⟩

/-- C5: the teardown logic of a subscription runs at most once.  On any
post-`subscribe` state (teardown handle installed, not yet unsubscribed)
a double `unsubscribe` runs teardown exactly once; if unsubscription was
requested while the teardown handle did not yet exist, the deferred
`teardownImmediately` flag makes teardown run exactly once as soon as the
handle is installed, and a further `unsubscribe` does not run it again;
and along every complete run of the state machine the teardown count
stays at most 1. -/
theorem subscription_teardown_once {V E : Type} (pre post : List (Act V E))
    (s : SubState V E)
    (h1 : s.teardownRefSet = true) (h2 : s.unsubscribed = false) :
    (unsubscribe (unsubscribe s)).teardownRuns = s.teardownRuns + 1
  ∧ ((runActs (initState : SubState V E) pre).teardownImmediately = true →
      (afterSubscribe pre).teardownRuns = 1
    ∧ (unsubscribe (afterSubscribe pre)).teardownRuns = 1)
  ∧ (runSubscription pre post).teardownRuns ≤ 1 := by
  refine ⟨?_, ?_, ?_⟩
  · simp [unsubscribe, h1, h2]
  · intro hImm
    obtain ⟨hr1, hr2, hr3⟩ := runActs_noRef pre (initState : SubState V E) rfl
    have hu2 : (runActs (initState : SubState V E) pre).unsubscribed = false := by
      rw [hr2]; rfl
    have hr3' : (runActs (initState : SubState V E) pre).teardownRuns = 0 := by
      rw [hr3]; rfl
    have hruns : (afterSubscribe pre).teardownRuns = 1 := by
      have heq : afterSubscribe pre =
          unsubscribe { runActs (initState : SubState V E) pre with teardownRefSet := true } := by
        unfold afterSubscribe
        simp [hImm]
      rw [heq]
      simp [unsubscribe, hu2, hr3']
    refine ⟨hruns, ?_⟩
    have hInv := tdInv_afterSubscribe (V := V) (E := E) pre
    have hu : (afterSubscribe pre).unsubscribed = true := by
      by_contra hc
      simp only [Bool.not_eq_true] at hc
      unfold tdInv at hInv
      rw [hc] at hInv
      simp only [if_neg Bool.false_ne_true] at hInv
      rw [hInv] at hruns
      exact absurd hruns (by simp)
    have h3 := tdInv_unsubscribe _ hInv
    unfold tdInv at h3
    rw [unsubscribe_keeps_unsubscribed _ hu] at h3
    simpa using h3
  · have hInv := tdInv_runActs post _ (tdInv_afterSubscribe (V := V) (E := E) pre)
    unfold tdInv at hInv
    unfold runSubscription
    rw [hInv]
    split <;> simp

/-- A concrete post-subscribe state with the teardown handle installed,
used by witnesses. -/
def readySt : SubState Nat Nat :=
  { teardownRefSet := true, isDone := false, unsubscribed := false,
    teardownImmediately := false, teardownRuns := 0,
    nextLog := [], errorLog := [], completeRuns := 0 }

/-- Witness for C5 at concrete action lists and a concrete state. -/
theorem subscription_teardown_once_witness :
    (unsubscribe (unsubscribe readySt)).teardownRuns = readySt.teardownRuns + 1
  ∧ ((runActs (initState : SubState Nat Nat) [Act.error 5]).teardownImmediately = true →
      (afterSubscribe (V := Nat) (E := Nat) [Act.error 5]).teardownRuns = 1
    ∧ (unsubscribe (afterSubscribe (V := Nat) (E := Nat) [Act.error 5])).teardownRuns = 1)
  ∧ (runSubscription (V := Nat) (E := Nat) [Act.error 5] [Act.unsub]).teardownRuns ≤ 1 :=
  subscription_teardown_once [Act.error 5] [Act.unsub] readySt rfl rfl

/-! ### Claim C10 -/

/-- C10: `unsubscribe` does not latch the done state.  If neither `error`
nor `complete` has fired, the state stays not-done across `unsubscribe`,
and a subsequent producer `next(v)` still delivers `v` to the downstream
observer's `next` callback: teardown releases the producer's resource but
does not suppress event delivery. -/
theorem unsubscribe_preserves_delivery {V E : Type} (s : SubState V E) (v : V)
    (h : s.isDone = false) :
    (unsubscribe s).isDone = false
  ∧ (stepAct (unsubscribe s) (Act.next v)).nextLog = s.nextLog ++ [v] := by
  obtain ⟨hd0, hn0, _, _⟩ := unsubscribe_fields s
  have hd : (unsubscribe s).isDone = false := hd0.trans h
  exact ⟨hd, by simp [stepAct, hd, hn0]⟩

/-- Witness for C10: an unsubscribed-but-live subscription still
delivering a `next` value. -/
theorem unsubscribe_preserves_delivery_witness :
    (unsubscribe readySt).isDone = false
  ∧ (stepAct (unsubscribe readySt) (Act.next 3)).nextLog = readySt.nextLog ++ [3] :=
  unsubscribe_preserves_delivery readySt 3 rfl

/-! ### Lemmas about the handler state machine -/

theorem assocFindNat_append_self (l : List (Nat × SubEntry)) (k : Nat) (v : SubEntry)
    (h : assocFindNat l k = none) : assocFindNat (l ++ [(k, v)]) k = some v := by
  induction l with
  | nil => simp [assocFindNat]
  | cons p rest ih =>
    rcases p with ⟨k', v'⟩
    by_cases hk : k' = k
    · rw [hk] at h
      simp [assocFindNat] at h
    · simp only [assocFindNat, if_neg hk] at h
      simpa [assocFindNat, hk] using ih h

theorem assocFindNat_append_other (l : List (Nat × SubEntry)) (k k' : Nat) (v : SubEntry)
    (h : k ≠ k') : assocFindNat (l ++ [(k, v)]) k' = assocFindNat l k' := by
  induction l with
  | nil => simp [assocFindNat, h]
  | cons p rest ih =>
    rcases p with ⟨k2, v2⟩
    by_cases hk : k2 = k'
    · simp [assocFindNat, hk]
    · simpa [assocFindNat, hk] using ih

theorem assocSetNat_append_self (l : List (Nat × SubEntry)) (k : Nat) (v v' : SubEntry)
    (h : assocFindNat l k = none) :
    assocSetNat (l ++ [(k, v)]) k v' = l ++ [(k, v')] := by
  induction l with
  | nil => simp [assocSetNat]
  | cons p rest ih =>
    rcases p with ⟨k2, v2⟩
    by_cases hk : k2 = k
    · rw [hk] at h
      simp [assocFindNat] at h
    · simp only [assocFindNat, if_neg hk] at h
      simpa [assocSetNat, hk] using ih h

theorem destroySub_map (st : HandlerState) (sid : Nat) :
    (destroySub st sid).clientSubscriptions = st.clientSubscriptions := by
  unfold destroySub
  split
  · rfl
  · split
    · dsimp only
      split <;> rfl
    · rfl

/-- Destroying the freshly created (not yet registered, handler-less)
Subscription in the duplicate branch: it is marked destroyed and, having
no attached handlers, emits nothing. -/
theorem destroySub_fresh_append (st : HandlerState) (sid : Nat)
    (hfresh : assocFindNat st.subs sid = none) :
    destroySub { st with
                 nextSubId := sid + 1,
                 subs := st.subs ++ [(sid, { status := SubStatus.active, handlersFor := none })] } sid
    = { st with
        nextSubId := sid + 1,
        subs := st.subs ++ [(sid, { status := SubStatus.destroyed, handlersFor := none })] } := by
  have hfind : assocFindNat
        (st.subs ++ [(sid, ({ status := SubStatus.active, handlersFor := none } : SubEntry))]) sid
      = some { status := SubStatus.active, handlersFor := none } :=
    assocFindNat_append_self _ _ _ hfresh
  have hset : assocSetNat
        (st.subs ++ [(sid, ({ status := SubStatus.active, handlersFor := none } : SubEntry))]) sid
        ({ status := SubStatus.destroyed, handlersFor := none } : SubEntry)
      = st.subs ++ [(sid, ({ status := SubStatus.destroyed, handlersFor := none } : SubEntry))] :=
    assocSetNat_append_self _ _ _ _ hfresh
  unfold destroySub
  simp [hfind, hset]

/-! ### Claim C6 -/

/-- C6: a subscription request whose id is already tracked in
`clientSubscriptions`: the freshly obtained Subscription is destroyed
immediately without being registered (it had no handlers attached, so
its destruction emits nothing), the handler responds with exactly one
error envelope for that id with code `BAD_REQUEST` and message
`Duplicate id <id>`, the map is unchanged (so the previous registration
for that id remains), and the previously registered Subscription object
is untouched. -/
theorem duplicate_subscription_rejected (router : Router) (st : HandlerState)
    (id : JSVal) (path : String) (input : JSVal) (oldSid : Nat) (oldEntry : SubEntry)
    (hid : id.isNull = false)
    (hrouter : router path ProcType.subscription input = ProcOutcome.subscription)
    (hdup : mapLookup st.clientSubscriptions id = some oldSid)
    (hold : assocFindNat st.subs oldSid = some oldEntry)
    (hfresh : assocFindNat st.subs st.nextSubId = none) :
    (handleRequest router st { id := id, body := ReqBody.proc ProcType.subscription path input }).1.clientSubscriptions
      = st.clientSubscriptions
  ∧ assocFindNat (handleRequest router st { id := id, body := ReqBody.proc ProcType.subscription path input }).1.subs st.nextSubId
      = some { status := SubStatus.destroyed, handlersFor := none }
  ∧ assocFindNat (handleRequest router st { id := id, body := ReqBody.proc ProcType.subscription path input }).1.subs oldSid
      = some oldEntry
  ∧ (handleRequest router st { id := id, body := ReqBody.proc ProcType.subscription path input }).1.sent
      = st.sent ++ [Response.errRes id { code := Code.BAD_REQUEST, message := some ("Duplicate id " ++ jsToString id) }]
  ∧ (handleRequest router st { id := id, body := ReqBody.proc ProcType.subscription path input }).2 = false := by
  have hneq : st.nextSubId ≠ oldSid := by
    intro hcontra
    rw [hcontra, hold] at hfresh
    cases hfresh
  have hmain : handleRequest router st { id := id, body := ReqBody.proc ProcType.subscription path input }
      = ({ st with
           nextSubId := st.nextSubId + 1,
           subs := st.subs ++ [(st.nextSubId, { status := SubStatus.destroyed, handlersFor := none })],
           sent := st.sent ++ [Response.errRes id { code := Code.BAD_REQUEST, message := some ("Duplicate id " ++ jsToString id) }] }, false) := by
    unfold handleRequest
    simp only [hid, Bool.false_eq_true, if_false, hrouter]
    simp only [hdup, Option.isSome_some, if_true]
    rw [destroySub_fresh_append st st.nextSubId hfresh]
  refine ⟨?_, ?_, ?_, ?_, ?_⟩
  · rw [hmain]
  · rw [hmain]
    exact assocFindNat_append_self _ _ _ hfresh
  · rw [hmain]
    exact (assocFindNat_append_other _ _ _ _ hneq).trans hold
  · rw [hmain]
  · rw [hmain]

/-- A router on which every path resolves to a Subscription, used by
handler witnesses. -/
def constSubRouter : Router := fun _ _ _ => ProcOutcome.subscription

/-- A handler state with one registered, active subscription under id 7. -/
def stWith7 : HandlerState :=
  { clientSubscriptions := [(JSVal.num 7, 0)],
    subs := [(0, { status := SubStatus.active, handlersFor := some (JSVal.num 7) })],
    nextSubId := 1, sent := [] }

/-- Witness for C6: a duplicate subscription request for id 7. -/
theorem duplicate_subscription_rejected_witness :
    (handleRequest constSubRouter stWith7 { id := JSVal.num 7, body := ReqBody.proc ProcType.subscription "p" JSVal.null }).1.clientSubscriptions
      = stWith7.clientSubscriptions
  ∧ assocFindNat (handleRequest constSubRouter stWith7 { id := JSVal.num 7, body := ReqBody.proc ProcType.subscription "p" JSVal.null }).1.subs stWith7.nextSubId
      = some { status := SubStatus.destroyed, handlersFor := none }
  ∧ assocFindNat (handleRequest constSubRouter stWith7 { id := JSVal.num 7, body := ReqBody.proc ProcType.subscription "p" JSVal.null }).1.subs 0
      = some { status := SubStatus.active, handlersFor := some (JSVal.num 7) }
  ∧ (handleRequest constSubRouter stWith7 { id := JSVal.num 7, body := ReqBody.proc ProcType.subscription "p" JSVal.null }).1.sent
      = stWith7.sent ++ [Response.errRes (JSVal.num 7) { code := Code.BAD_REQUEST, message := some ("Duplicate id " ++ jsToString (JSVal.num 7)) }]
  ∧ (handleRequest constSubRouter stWith7 { id := JSVal.num 7, body := ReqBody.proc ProcType.subscription "p" JSVal.null }).2 = false :=
  duplicate_subscription_rejected constSubRouter stWith7 (JSVal.num 7) "p" JSVal.null 0
    { status := SubStatus.active, handlersFor := some (JSVal.num 7) }
    rfl rfl rfl rfl rfl

/-! ### Claim C7 -/

/-- C7 counterexample: register a subscription for id 1 on a fresh
handler, then destroy that subscription (its `destroy` event fires and
the `stopped` envelope goes out) — yet the `clientSubscriptions` map
still contains id 1.  This refutes the claim that the map entry is
removed whenever the subscription is destroyed or errors: only
`subscription.stop` handling and `close()` remove entries. -/
theorem destroy_event_keeps_map_entry :
    mapLookup (destroySub (handleRequest constSubRouter emptyHandlerState
        { id := JSVal.num 1, body := ReqBody.proc ProcType.subscription "p" JSVal.null }).1 0).clientSubscriptions
      (JSVal.num 1) = some 0
  ∧ assocFindNat (destroySub (handleRequest constSubRouter emptyHandlerState
        { id := JSVal.num 1, body := ReqBody.proc ProcType.subscription "p" JSVal.null }).1 0).subs 0
      = some { status := SubStatus.destroyed, handlersFor := some (JSVal.num 1) }
  ∧ (destroySub (handleRequest constSubRouter emptyHandlerState
        { id := JSVal.num 1, body := ReqBody.proc ProcType.subscription "p" JSVal.null }).1 0).sent
      = [Response.started (JSVal.num 1), Response.stopped (JSVal.num 1)] :=
  ⟨rfl, rfl, rfl⟩

/-- Key equality of the `clientSubscriptions` map implies value equality:
`idKeyEq` is true only on equal primitives (object and array keys compare
by reference and never collide in the model). -/
theorem idKeyEq_eq (a b : JSVal) (h : idKeyEq a b = true) : a = b := by
  cases a <;> cases b <;> simp_all [idKeyEq]

/-- JS `Map` key uniqueness: every key occurs at most once.  `Map.set`
and `Map.delete` guarantee this for every reachable map; it is taken as
a hypothesis on the state here. -/
def mapNoDupKeys : List (JSVal × Nat) → Prop
  | [] => True
  | (k, _) :: rest => mapLookup rest k = none ∧ mapNoDupKeys rest

theorem mapLookup_mapDelete_self (m : List (JSVal × Nat)) (k : JSVal)
    (hnodup : mapNoDupKeys m) : mapLookup (mapDelete m k) k = none := by
  induction m with
  | nil => rfl
  | cons p rest ih =>
    rcases p with ⟨k', v⟩
    obtain ⟨h1, h2⟩ := hnodup
    by_cases hk : idKeyEq k' k = true
    · have hkey : k' = k := idKeyEq_eq _ _ hk
      subst hkey
      simpa [mapDelete, hk] using h1
    · simp only [mapDelete, mapLookup, hk]
      simp only [Bool.false_eq_true, if_false]
      exact ih h2

/-- C7 as amended: a map entry is created when a subscription request is
accepted; `subscription.stop` handling removes the tracked entry for its
id — afterwards the map no longer contains that id — and `close()` clears
the map; but the `destroy` and `error` event handlers only emit envelopes
and leave the `clientSubscriptions` map unchanged. -/
theorem map_entry_lifecycle (router : Router) (st : HandlerState)
    (idNew idStop : JSVal) (path : String) (input : JSVal) (e : HandlerError)
    (sid oldSid : Nat)
    (hidNew : idNew.isNull = false)
    (hidStop : idStop.isNull = false)
    (hrouter : router path ProcType.subscription input = ProcOutcome.subscription)
    (hnew : mapLookup st.clientSubscriptions idNew = none)
    (hstop : mapLookup st.clientSubscriptions idStop = some oldSid)
    (hnodup : mapNoDupKeys st.clientSubscriptions) :
    (handleRequest router st { id := idNew, body := ReqBody.proc ProcType.subscription path input }).1.clientSubscriptions
      = mapSet st.clientSubscriptions idNew st.nextSubId
  ∧ (handleRequest router st { id := idStop, body := ReqBody.stop }).1.clientSubscriptions
      = mapDelete st.clientSubscriptions idStop
  ∧ mapLookup (handleRequest router st { id := idStop, body := ReqBody.stop }).1.clientSubscriptions idStop
      = none
  ∧ (closeHandler st).clientSubscriptions = []
  ∧ (destroySub st sid).clientSubscriptions = st.clientSubscriptions
  ∧ (fireError st idStop e).clientSubscriptions = st.clientSubscriptions := by
  have hstopEq : (handleRequest router st { id := idStop, body := ReqBody.stop }).1.clientSubscriptions
      = mapDelete st.clientSubscriptions idStop := by
    unfold handleRequest
    simp only [hidStop, Bool.false_eq_true, if_false, hstop]
    simp [destroySub_map]
  refine ⟨?_, hstopEq, ?_, rfl, destroySub_map st sid, rfl⟩
  · unfold handleRequest
    simp only [hidNew, Bool.false_eq_true, if_false, hrouter]
    simp only [hnew, Option.isSome_none, Bool.false_eq_true, if_false]
  · rw [hstopEq]
    exact mapLookup_mapDelete_self _ _ hnodup

/-- Witness for C7's amended statement on the concrete one-subscription
state: a fresh id 2 gets registered, and stopping the tracked id 7
removes its entry — the map no longer contains id 7 afterwards. -/
theorem map_entry_lifecycle_witness :
    (handleRequest constSubRouter stWith7 { id := JSVal.num 2, body := ReqBody.proc ProcType.subscription "p" JSVal.null }).1.clientSubscriptions
      = mapSet stWith7.clientSubscriptions (JSVal.num 2) stWith7.nextSubId
  ∧ (handleRequest constSubRouter stWith7 { id := JSVal.num 7, body := ReqBody.stop }).1.clientSubscriptions
      = mapDelete stWith7.clientSubscriptions (JSVal.num 7)
  ∧ mapLookup (handleRequest constSubRouter stWith7 { id := JSVal.num 7, body := ReqBody.stop }).1.clientSubscriptions (JSVal.num 7)
      = none
  ∧ (closeHandler stWith7).clientSubscriptions = []
  ∧ (destroySub stWith7 0).clientSubscriptions = stWith7.clientSubscriptions
  ∧ (fireError stWith7 (JSVal.num 7) { code := Code.PARSE_ERROR, message := none }).clientSubscriptions
      = stWith7.clientSubscriptions :=
  map_entry_lifecycle constSubRouter stWith7 (JSVal.num 2) (JSVal.num 7) "p" JSVal.null
    { code := Code.PARSE_ERROR, message := none } 0 0 rfl rfl rfl rfl rfl ⟨rfl, trivial⟩

/-! ### Claim C8 -/

theorem parseAll_error_of_mem (deser : JSVal → JSVal) (bad : JSVal) (err : String) :
    ∀ msgs : List JSVal, bad ∈ msgs → parseMessage deser bad = Except.error err →
      ∃ e, parseAll deser msgs = Except.error e := by
  intro msgs
  induction msgs with
  | nil => intro h; cases h
  | cons m rest ih =>
    intro hmem herr
    cases hpm : parseMessage deser m with
    | error e => exact ⟨e, by simp only [parseAll, hpm]; rfl⟩
    | ok r =>
      rcases List.mem_cons.mp hmem with heq | hmem'
      · rw [heq] at herr
        rw [herr] at hpm
        cases hpm
      · obtain ⟨e, he⟩ := ih hmem' herr
        refine ⟨e, ?_⟩
        simp only [parseAll, hpm, he]
        rfl

/-- The single valid `subscription.stop` envelope for id 5. -/
def stopEnv5 : JSVal :=
  JSVal.obj [("id", JSVal.num 5), ("method", JSVal.str "subscription.stop")]

/-- A handler state with one registered, active subscription under id 5. -/
def stWith5 : HandlerState :=
  { clientSubscriptions := [(JSVal.num 5, 0)],
    subs := [(0, { status := SubStatus.active, handlersFor := some (JSVal.num 5) })],
    nextSubId := 1, sent := [] }

/-- C8 counterexample: in the batch `[stop-for-5, 3]` the first envelope
parses fine (first conjunct) and, dispatched alone, removes id 5 from the
map (last conjunct) — but batched together with the malformed member `3`,
nothing is dispatched: the map still holds id 5 and the only outbound
envelope is the single `PARSE_ERROR` with id null.  This refutes the
claim that each batch member is parsed and dispatched independently of
the others. -/
theorem batch_parse_failure_aborts_all :
    parseMessage (fun v => v) stopEnv5 = Except.ok { id := JSVal.num 5, body := ReqBody.stop }
  ∧ (onMessage constSubRouter (fun v => v) stWith5
        (JSVal.arr [stopEnv5, JSVal.num 3])).clientSubscriptions = [(JSVal.num 5, 0)]
  ∧ (onMessage constSubRouter (fun v => v) stWith5
        (JSVal.arr [stopEnv5, JSVal.num 3])).sent = [parseErrorResponse]
  ∧ (onMessage constSubRouter (fun v => v) stWith5 stopEnv5).clientSubscriptions = [] :=
  ⟨rfl, rfl, rfl, rfl⟩

/-- C8 as amended: batch members are not parsed independently — if any
member fails to parse, the whole inbound message is aborted before any
member is dispatched, and the only effect is one `PARSE_ERROR` envelope
with id null; only when every member parses are the members dispatched
(each through `handleRequest`, all awaited; in this sequential model they
run in batch order, the source giving no ordering guarantee). -/
theorem batch_parse_not_independent (router : Router) (deser : JSVal → JSVal)
    (st st2 : HandlerState) (msgs : List JSVal) (bad : JSVal) (err : String)
    (msgs2 : List JSVal) (reqs2 : List TRPCReq)
    (hbad : bad ∈ msgs) (herr : parseMessage deser bad = Except.error err)
    (hok : parseAll deser msgs2 = Except.ok reqs2) :
    onMessage router deser st (JSVal.arr msgs)
      = { st with sent := st.sent ++ [parseErrorResponse] }
  ∧ onMessage router deser st2 (JSVal.arr msgs2)
      = (if (dispatchAll router st2 reqs2).2
         then { (dispatchAll router st2 reqs2).1 with
                sent := (dispatchAll router st2 reqs2).1.sent ++ [parseErrorResponse] }
         else (dispatchAll router st2 reqs2).1) := by
  constructor
  · obtain ⟨e, he⟩ := parseAll_error_of_mem deser bad err msgs hbad herr
    simp [onMessage, he]
  · simp [onMessage, hok]

/-- Witness for C8's amended statement on the concrete batch. -/
theorem batch_parse_not_independent_witness :
    onMessage constSubRouter (fun v => v) stWith5 (JSVal.arr [stopEnv5, JSVal.num 3])
      = { stWith5 with sent := stWith5.sent ++ [parseErrorResponse] }
  ∧ onMessage constSubRouter (fun v => v) stWith5 (JSVal.arr [stopEnv5])
      = (if (dispatchAll constSubRouter stWith5 [{ id := JSVal.num 5, body := ReqBody.stop }]).2
         then { (dispatchAll constSubRouter stWith5 [{ id := JSVal.num 5, body := ReqBody.stop }]).1 with
                sent := (dispatchAll constSubRouter stWith5 [{ id := JSVal.num 5, body := ReqBody.stop }]).1.sent ++ [parseErrorResponse] }
         else (dispatchAll constSubRouter stWith5 [{ id := JSVal.num 5, body := ReqBody.stop }]).1) :=
  batch_parse_not_independent constSubRouter (fun v => v) stWith5 stWith5
    [stopEnv5, JSVal.num 3] (JSVal.num 3) "Not an object"
    [stopEnv5] [{ id := JSVal.num 5, body := ReqBody.stop }]
    (List.mem_cons_of_mem _ (List.mem_cons_self _ _)) rfl rfl

/-! ### Claim C9 -/

/-- C9 counterexample: the guard of `assertIsRequestId` IS satisfiable —
`NaN` is not null, has `typeof === 'number'`, satisfies `isNaN`, and does
not have `typeof === 'string'`, so `assertIsRequestId(NaN)` throws.  This
refutes the claim that the condition can never be true and that the
function returns normally on every input. -/
theorem assertIsRequestId_rejects_nan :
    requestIdGuard JSVal.nan = true
  ∧ assertIsRequestId JSVal.nan = Except.error "Invalid request id" :=
  ⟨rfl, rfl⟩

/-- C9 as amended: the guard condition holds for exactly one value, `NaN`
(the `typeof obj !== 'string'` conjunct is redundant, not contradictory):
`assertIsRequestId` throws on `NaN` and returns normally on every other
input whatsoever — in particular it rejects no null, number, string, or
even object id. -/
theorem requestId_guard_only_nan (v : JSVal) (h : v ≠ JSVal.nan) :
    requestIdGuard v = false
  ∧ assertIsRequestId v = Except.ok ()
  ∧ requestIdGuard JSVal.nan = true := by
  cases v with
  | nan => exact absurd rfl h
  | null => exact ⟨rfl, rfl, rfl⟩
  | undefined => exact ⟨rfl, rfl, rfl⟩
  | bool b => exact ⟨rfl, rfl, rfl⟩
  | num n => exact ⟨rfl, rfl, rfl⟩
  | str s => exact ⟨rfl, rfl, rfl⟩
  | arr xs => exact ⟨rfl, rfl, rfl⟩
  | obj fs => exact ⟨rfl, rfl, rfl⟩

/-- Witness for C9's amended statement at the number 7. -/
theorem requestId_guard_only_nan_witness :
    requestIdGuard (JSVal.num 7) = false
  ∧ assertIsRequestId (JSVal.num 7) = Except.ok ()
  ∧ requestIdGuard JSVal.nan = true :=
  requestId_guard_only_nan (JSVal.num 7) (fun h => JSVal.noConfusion h)

end TrpcSpec
